import Mathlib

/-!
Verification of the dual-target code-synthesis engine of
`psychopy/experiment/components/image/__init__.py` (`ImageComponent`):
the parameter model, the per-target value resolution and coercion rules,
and the two code emitters `writeInitCode` (native/Python target) and
`writeInitCodeJS` (web/JS target).

Shallow embedding conventions:
* Python values stored in a `Param` are modelled by `PyVal` (the values
  actually occurring here: `None`, booleans, strings, integers; tuple-valued
  defaults such as `pos=(0, 0)` are modelled by their rendered text as
  code-typed values).
* The parameter mapping `self.params` (a Python dict) is modelled as an
  association list `Params` with string keys.
* Code that is part of this repository but not under `src/`
  (`Param.__str__`, `getInitVals`, `BaseVisualComponent.__init__`,
  `BaseComponent.getPosInRoutine`) is modelled from the spec; each such
  definition carries a doc comment starting with `Modelled from the spec:`.
* Fallible template substitution (a missing key raises `KeyError` in
  Python) is modelled with `Option`.
-/

namespace PsychopyImage

/-- A single-quote character (codepoint 39), used by the string renderer.
(Kept as a named definition so quoted renderings are explicit.) -/
def sq : String := String.singleton (Char.ofNat 39)

/-- A Python value as stored in a `Param.val` field: `None`, a genuine
`bool`, a `str`, or an integer. -/
inductive PyVal where
  | pynone : PyVal
  | pybool : Bool → PyVal
  | pystr : String → PyVal
  | pynum : Int → PyVal
deriving BEq, DecidableEq, Repr

/-- One typed, named attribute: the slice of the source `Param` class that
resolution and emission read (`val`, `valType`, `updates`). -/
structure Param where
  val : PyVal
  valType : String
  updates : String
deriving BEq, DecidableEq, Repr

/-- The parameter mapping `self.params`: an ordered association list, as a
Python dict is ordered. -/
abbrev Params := List (String × Param)

/-- Dict lookup `params[name]`; `none` models a `KeyError`. -/
def lookupP (params : Params) (n : String) : Option Param :=
  (params.find? (fun kv => kv.1 == n)).map (fun kv => kv.2)

/-- `del params[name]` (the key occurs at most once, so removing every
binding of the name is the same as Python `del`). -/
def delParam (ps : Params) (n : String) : Params :=
  ps.filter (fun kv => kv.1 != n)

/-- Raw (unquoted) text of a value, as Python `str()` renders it. -/
def rawText : PyVal → String
  | .pynone => "None"
  | .pybool b => if b then "True" else "False"
  | .pystr s => s
  | .pynum n => toString n

/-- Modelled from the spec: `Param.__str__` (the literal renderer of the
`Param` class, which is not under `src/`). Spec 4.2: strings render quoted
unless the declared type is `code` (raw expression text); `None` renders as
the native null literal; booleans render as native boolean literals;
numbers render raw. -/
def renderParam (p : Param) : String :=
  if p.valType == "code" || p.valType == "num" then rawText p.val
  else
    match p.val with
    | .pynone => "None"
    | .pybool b => if b then "True" else "False"
    | .pystr s => sq ++ s ++ sq
    | .pynum n => toString n

/-- The sentinel test `val in [None, 'None', 'none', '', 'sin']` of
`writeInitCodeJS` (source lines 155): Python `in` compares with `==`, so a
genuine bool or a number never matches. -/
def isSentinel : PyVal → Bool
  | .pynone => true
  | .pystr s => s == "None" || s == "none" || s == "" || s == "sin"
  | _ => false

/-- Modelled from the spec: `getInitVals` (imported from
`psychopy.experiment.components`, not under `src/`). It deep-copies the
parameter mapping into a fresh, transient resolved map and never mutates
the source parameters (spec 3, Resolved Value Map); its replacement of
update-scheduled values by defaults does not change the constant-update
parameters of this component, so entries pass through unchanged. -/
def getInitVals (params : Params) (_target : String) : Params :=
  params

/-- An entry of the JS `inits` dict after the coercion loop: either still
a `Param`, or a bare string (the loop rebinds `inits[name] = 'true'`,
replacing the `Param` object by a Python `str`). -/
inductive InitEntry where
  | param : Param → InitEntry
  | rawtext : String → InitEntry
deriving BEq, DecidableEq, Repr

/-- The text an entry contributes when substituted into the template
(`format` calls `str()` on the entry: a `Param` renders via
`Param.__str__`, a bare string renders as itself). -/
def substText : InitEntry → String
  | .param p => renderParam p
  | .rawtext s => s

/-- The body of the JS coercion loop (source lines 149-157): a genuine
`True`/`False` (identity test `val is True` / `val is False`) is replaced
by the bare string `'true'` / `'false'`; a sentinel value has its
`valType` forced to `'code'` and its `val` set to `'undefined'`; any other
entry is left untouched. -/
def coerceJS (p : Param) : InitEntry :=
  if p.val == PyVal.pybool true then .rawtext "true"
  else if p.val == PyVal.pybool false then .rawtext "false"
  else if isSentinel p.val then
    .param { p with val := PyVal.pystr "undefined", valType := "code" }
  else .param p

/-- The substitution text of a parameter in the JS template: the coercion
loop followed by `str()` at format time. -/
def jsSub (p : Param) : String := substText (coerceJS p)

/-- `inits = getInitVals(self.params, 'PsychoJS')` followed by the
coercion loop over every entry of `inits`. -/
def jsInits (params : Params) : List (String × InitEntry) :=
  (getInitVals params "PsychoJS").map (fun kv => (kv.1, coerceJS kv.2))

/-- Lookup in the coerced JS `inits` dict. -/
def lookupE (inits : List (String × InitEntry)) (n : String) : Option InitEntry :=
  (inits.find? (fun kv => kv.1 == n)).map (fun kv => kv.2)

/-- Modelled from the spec: `self.getPosInRoutine()` (BaseComponent, not
under `src/`) returns the 1-based ordinal position of the component among
its routine siblings; the position is supplied as an input here.
`depth = -self.getPosInRoutine()` (source lines 135 and 176). -/
def depthFor (posInRoutine : Nat) : Int :=
  -(posInRoutine : Int)

/-- Python `"%.1f" % depth` for the integral depth value: the integer text
followed by `.0` (the depth is always an exact integer, so one decimal
place is always `.0`). -/
def fmtFloat1 (d : Int) : String :=
  toString d ++ ".0"

/-- The native units clause (source lines 112-115): empty when the raw
value equals the sentinel `'from exp settings'`, otherwise
`units=<rendered>, `. -/
def nativeUnitsStr (units : Param) : String :=
  if units.val == PyVal.pystr "from exp settings" then ""
  else ("units=" ++ renderParam units) ++ ", "

/-- The JS units clause (source lines 141-144): `units : undefined, ` when
the raw value equals the sentinel, otherwise `units : <rendered>, ` --
rendered from the raw `self.params['units']`, before the coercion loop. -/
def jsUnitsStr (units : Param) : String :=
  if units.val == PyVal.pystr "from exp settings" then "units : undefined, "
  else ("units : " ++ renderParam units) ++ ", "

/-- The head of the native template (source lines 119-121), up to and
including `name='...', ` where the units clause is spliced in. -/
def nativeHeader (nameR : String) : String :=
  nameR ++ " = visual.ImageStim(\n    win=win,\n    name=" ++ sq ++ nameR ++ sq ++ ", "

/-- The field list of the native template (source lines 122-127), from the
newline after the units clause through `texRes=...`. -/
def nativeFields (imageR maskR oriR posR sizeR colorR colorSpaceR opacityR
    flipHorizR flipVertR texResR : String) : String :=
  "\n    image=" ++ imageR ++ ", mask=" ++ maskR ++
  ",\n    ori=" ++ oriR ++ ", pos=" ++ posR ++ ", size=" ++ sizeR ++
  ",\n    color=" ++ colorR ++ ", colorSpace=" ++ colorSpaceR ++ ", opacity=" ++ opacityR ++
  ",\n    flipHoriz=" ++ flipHorizR ++ ", flipVert=" ++ flipVertR ++
  ",\n    texRes=" ++ texResR

/-- The head of the JS template (source lines 159-161), up to and
including `name : '...', ` where the units clause is spliced in. -/
def jsHeader (nameR : String) : String :=
  nameR ++ " = new visual.ImageStim(\x7b\n  win : psychoJS.window,\n  name : " ++ sq ++ nameR ++ sq ++ ", "

/-- The field list of the JS template (source lines 162-167); the color
field is wrapped in `new util.Color(...)` and there is no colorSpace
field. -/
def jsFields (imageR maskR oriR posR sizeR colorR opacityR
    flipHorizR flipVertR texResR : String) : String :=
  "\n  image : " ++ imageR ++ ", mask : " ++ maskR ++
  ",\n  ori : " ++ oriR ++ ", pos : " ++ posR ++ ", size : " ++ sizeR ++
  ",\n  color : new util.Color(" ++ colorR ++ "), opacity : " ++ opacityR ++
  ",\n  flipHoriz : " ++ flipHorizR ++ ", flipVert : " ++ flipVertR ++
  ",\n  texRes : " ++ texResR

/-- The parameter names the native template substitutes from `inits`
(source lines 119-127). -/
def nativeTemplateRefs : List String :=
  ["name", "image", "mask", "ori", "pos", "size", "color", "colorSpace",
   "opacity", "flipHoriz", "flipVert", "texture resolution"]

/-- The parameter names the JS template substitutes from `inits` (source
lines 159-167); there is no `colorSpace` field in the JS template. -/
def jsTemplateRefs : List String :=
  ["name", "image", "mask", "ori", "pos", "size", "color",
   "opacity", "flipHoriz", "flipVert", "texture resolution"]

/-- Total lookup used after the presence check (the default is never
reached on the success path). -/
def getP (params : Params) (n : String) : Param :=
  (lookupP params n).getD (Param.mk PyVal.pynone "" "")

/-- Total lookup in the coerced JS `inits` dict, used after the presence
check. -/
def getE (inits : List (String × InitEntry)) (n : String) : InitEntry :=
  (lookupE inits n).getD (InitEntry.rawtext "")

/-- `ImageComponent.writeInitCode` (source lines 110-137): the native
emitter. `posInRoutine` is the value of `self.getPosInRoutine()`. The
returned string is the `code` passed to `buff.writeIndentedLines`.
Python raises `KeyError` at the first missing substitution; here a single
up-front presence check over the referenced names (`units` and
`interpolate` are read from `self.params` directly, the rest through the
template) stands in for that: the output is `some` exactly when every
referenced name is bound. -/
def writeInitCode (params : Params) (posInRoutine : Nat) : Option String :=
  if ("units" :: "interpolate" :: nativeTemplateRefs).all
      (fun n => (lookupP params n).isSome) then
    let unitsStr := nativeUnitsStr (getP params "units")
    let inits := getInitVals params "PsychoPy"
    let code := nativeHeader (renderParam (getP inits "name")) ++ unitsStr ++
      nativeFields (renderParam (getP inits "image"))
        (renderParam (getP inits "mask")) (renderParam (getP inits "ori"))
        (renderParam (getP inits "pos")) (renderParam (getP inits "size"))
        (renderParam (getP inits "color")) (renderParam (getP inits "colorSpace"))
        (renderParam (getP inits "opacity")) (renderParam (getP inits "flipHoriz"))
        (renderParam (getP inits "flipVert"))
        (renderParam (getP inits "texture resolution"))
    let code := code ++
      (if (getP params "interpolate").val == PyVal.pystr "linear" then
        ", interpolate=True"
       else ", interpolate=False")
    let code := code ++ ((", depth=" ++ fmtFloat1 (depthFor posInRoutine)) ++ ")\n")
    some code
  else none

/-- `ImageComponent.writeInitCodeJS` (source lines 139-180): the web
emitter. The units clause is built from the raw `self.params` before the
coercion loop runs on the fresh `inits` copy; the `interpolate` test also
reads the raw `self.params`. The `jsTemplateRefs` substitutions read the
coerced `inits`; since the coercion loop preserves the keys, the presence
check over `self.params` is equivalent to Python's per-substitution
`KeyError`. -/
def writeInitCodeJS (params : Params) (posInRoutine : Nat) : Option String :=
  if ("units" :: "interpolate" :: jsTemplateRefs).all
      (fun n => (lookupP params n).isSome) then
    let unitsStr := jsUnitsStr (getP params "units")
    let inits := jsInits params
    let code := jsHeader (substText (getE inits "name")) ++ unitsStr ++
      jsFields (substText (getE inits "image"))
        (substText (getE inits "mask")) (substText (getE inits "ori"))
        (substText (getE inits "pos")) (substText (getE inits "size"))
        (substText (getE inits "color")) (substText (getE inits "opacity"))
        (substText (getE inits "flipHoriz")) (substText (getE inits "flipVert"))
        (substText (getE inits "texture resolution"))
    let code := code ++
      (if (getP params "interpolate").val == PyVal.pystr "linear" then
        ", interpolate : true"
       else ", interpolate : false")
    let code := code ++ ((", depth : " ++ fmtFloat1 (depthFor posInRoutine)) ++ " \n\x7d);\n")
    some code
  else none

/-- The constructor arguments of `ImageComponent.__init__` that the claims
vary (defaults as in the source signature, lines 32-39; the tuple defaults
`pos=(0, 0)` and `size=(0.5, 0.5)` are modelled by their rendered text). -/
structure ImageArgs where
  name : String := "image"
  image : String := "None"
  mask : String := "None"
  interpolate : String := "linear"
  units : String := "from exp settings"
  color : String := "$[1,1,1]"
  colorSpace : String := "rgb"
  pos : String := "(0, 0)"
  size : String := "(0.5, 0.5)"
  ori : Int := 0
  texRes : String := "128"
  flipVert : Bool := false
  flipHoriz : Bool := false
deriving Repr

/-- Modelled from the spec: the parameter mapping that
`BaseVisualComponent.__init__` (not under `src/`) installs before
`ImageComponent.__init__` adds its own parameters: identity, timing,
units, the color fields (including the fill/border color fields that the
image component deletes), geometry and opacity. Values that
`ImageComponent` does not forward keep fixed defaults. -/
def baseVisualParams (a : ImageArgs) : Params :=
  [("name", ⟨PyVal.pystr a.name, "code", "constant"⟩),
   ("startType", ⟨PyVal.pystr "time (s)", "str", "constant"⟩),
   ("startVal", ⟨PyVal.pystr "0.0", "code", "constant"⟩),
   ("stopType", ⟨PyVal.pystr "duration (s)", "str", "constant"⟩),
   ("stopVal", ⟨PyVal.pystr "1.0", "code", "constant"⟩),
   ("startEstim", ⟨PyVal.pystr "", "code", "constant"⟩),
   ("durationEstim", ⟨PyVal.pystr "", "code", "constant"⟩),
   ("units", ⟨PyVal.pystr a.units, "str", "constant"⟩),
   ("color", ⟨PyVal.pystr a.color, "str", "constant"⟩),
   ("colorSpace", ⟨PyVal.pystr a.colorSpace, "str", "constant"⟩),
   ("fillColor", ⟨PyVal.pystr "", "str", "constant"⟩),
   ("fillColorSpace", ⟨PyVal.pystr "rgb", "str", "constant"⟩),
   ("borderColor", ⟨PyVal.pystr "", "str", "constant"⟩),
   ("borderColorSpace", ⟨PyVal.pystr "rgb", "str", "constant"⟩),
   ("pos", ⟨PyVal.pystr a.pos, "code", "constant"⟩),
   ("size", ⟨PyVal.pystr a.size, "code", "constant"⟩),
   ("ori", ⟨PyVal.pynum a.ori, "num", "constant"⟩),
   ("opacity", ⟨PyVal.pynum 1, "num", "constant"⟩)]

/-- `ImageComponent.__init__` (source lines 32-108): the base parameters,
then the image-specific parameters (`image`, `mask`,
`texture resolution`, `interpolate`, `flipVert`, `flipHoriz` with the
valTypes of the source `Param(...)` calls), then the four deletions of the
fill/border color parameters (source lines 105-108). -/
def imageComponentInit (a : ImageArgs) : Params :=
  let ps := baseVisualParams a ++
    [("image", ⟨PyVal.pystr a.image, "file", "constant"⟩),
     ("mask", ⟨PyVal.pystr a.mask, "str", "constant"⟩),
     ("texture resolution", ⟨PyVal.pystr a.texRes, "num", "constant"⟩),
     ("interpolate", ⟨PyVal.pystr a.interpolate, "str", "constant"⟩),
     ("flipVert", ⟨PyVal.pybool a.flipVert, "bool", "constant"⟩),
     ("flipHoriz", ⟨PyVal.pybool a.flipHoriz, "bool", "constant"⟩)]
  delParam (delParam (delParam (delParam ps "fillColor") "fillColorSpace")
    "borderColor") "borderColorSpace"

/-- One native generation pass over a caller-owned output buffer: emits
the construction statement and appends it (`buff.writeIndentedLines`).
The returned `Params` is the descriptor state after the pass: the pass
reads `self.params` and only ever writes to the fresh copy produced by
`getInitVals`, so the source mapping is returned unchanged. -/
def writeInitCodePass (params : Params) (posInRoutine : Nat) (buff : String) :
    Option (String × Params) :=
  (writeInitCode params posInRoutine).map (fun out => (buff ++ out, params))

/-- One web generation pass over a caller-owned output buffer; the JS
coercion loop mutates only the fresh `inits` copy, so the source mapping
is returned unchanged. -/
def writeInitCodeJSPass (params : Params) (posInRoutine : Nat) (buff : String) :
    Option (String × Params) :=
  (writeInitCodeJS params posInRoutine).map (fun out => (buff ++ out, params))

/-! ## Decomposition of the emitted statements

The emitters above build their output as
`body ++ interpolate-clause ++ depth-clause`, where the body itself is
`header ++ units-clause ++ field-list`. The definitions below name those
pieces for a descriptor built by `imageComponentInit`, so theorems can
state exactly where each clause sits in the output. -/

/-- The raw `units` parameter of a constructed descriptor. -/
def unitsParamOf (a : ImageArgs) : Param :=
  ⟨PyVal.pystr a.units, "str", "constant"⟩

/-- The raw `interpolate` parameter of a constructed descriptor. -/
def interpParamOf (a : ImageArgs) : Param :=
  ⟨PyVal.pystr a.interpolate, "str", "constant"⟩

/-- The rendered native field list for a constructed descriptor. -/
def nativeFieldsOf (a : ImageArgs) : String :=
  nativeFields (renderParam ⟨PyVal.pystr a.image, "file", "constant"⟩)
    (renderParam ⟨PyVal.pystr a.mask, "str", "constant"⟩)
    (renderParam ⟨PyVal.pynum a.ori, "num", "constant"⟩)
    (renderParam ⟨PyVal.pystr a.pos, "code", "constant"⟩)
    (renderParam ⟨PyVal.pystr a.size, "code", "constant"⟩)
    (renderParam ⟨PyVal.pystr a.color, "str", "constant"⟩)
    (renderParam ⟨PyVal.pystr a.colorSpace, "str", "constant"⟩)
    (renderParam ⟨PyVal.pynum 1, "num", "constant"⟩)
    (renderParam ⟨PyVal.pybool a.flipHoriz, "bool", "constant"⟩)
    (renderParam ⟨PyVal.pybool a.flipVert, "bool", "constant"⟩)
    (renderParam ⟨PyVal.pystr a.texRes, "num", "constant"⟩)

/-- The native statement body (header, units clause, field list) for a
constructed descriptor. -/
def nativeBodyOf (a : ImageArgs) : String :=
  nativeHeader (renderParam ⟨PyVal.pystr a.name, "code", "constant"⟩) ++
    nativeUnitsStr (unitsParamOf a) ++ nativeFieldsOf a

/-- The native interpolate clause for a constructed descriptor. -/
def nativeInterpOf (a : ImageArgs) : String :=
  if PyVal.pystr a.interpolate == PyVal.pystr "linear" then ", interpolate=True"
  else ", interpolate=False"

/-- The native depth clause, closing the construction call. -/
def nativeDepthOf (posInRoutine : Nat) : String :=
  (", depth=" ++ fmtFloat1 (depthFor posInRoutine)) ++ ")\n"

/-- The substituted JS field list for a constructed descriptor. -/
def jsFieldsOf (a : ImageArgs) : String :=
  jsFields (jsSub ⟨PyVal.pystr a.image, "file", "constant"⟩)
    (jsSub ⟨PyVal.pystr a.mask, "str", "constant"⟩)
    (jsSub ⟨PyVal.pynum a.ori, "num", "constant"⟩)
    (jsSub ⟨PyVal.pystr a.pos, "code", "constant"⟩)
    (jsSub ⟨PyVal.pystr a.size, "code", "constant"⟩)
    (jsSub ⟨PyVal.pystr a.color, "str", "constant"⟩)
    (jsSub ⟨PyVal.pynum 1, "num", "constant"⟩)
    (jsSub ⟨PyVal.pybool a.flipHoriz, "bool", "constant"⟩)
    (jsSub ⟨PyVal.pybool a.flipVert, "bool", "constant"⟩)
    (jsSub ⟨PyVal.pystr a.texRes, "num", "constant"⟩)

/-- The JS statement body (header, units clause, field list) for a
constructed descriptor. -/
def jsBodyOf (a : ImageArgs) : String :=
  jsHeader (jsSub ⟨PyVal.pystr a.name, "code", "constant"⟩) ++
    jsUnitsStr (unitsParamOf a) ++ jsFieldsOf a

/-- The JS interpolate clause for a constructed descriptor. -/
def jsInterpOf (a : ImageArgs) : String :=
  if PyVal.pystr a.interpolate == PyVal.pystr "linear" then ", interpolate : true"
  else ", interpolate : false"

/-- The JS depth clause and statement terminator. -/
def jsDepthOf (posInRoutine : Nat) : String :=
  (", depth : " ++ fmtFloat1 (depthFor posInRoutine)) ++ " \n\x7d);\n"

/-- Shape of the native emitter's output on any constructed descriptor. -/
theorem writeInitCode_init (a : ImageArgs) (p : Nat) :
    writeInitCode (imageComponentInit a) p =
      some ((nativeBodyOf a ++ nativeInterpOf a) ++ nativeDepthOf p) := rfl

/-- Shape of the web emitter's output on any constructed descriptor. -/
theorem writeInitCodeJS_init (a : ImageArgs) (p : Nat) :
    writeInitCodeJS (imageComponentInit a) p =
      some ((jsBodyOf a ++ jsInterpOf a) ++ jsDepthOf p) := rfl

/-! ## Claims -/

/-- C1: for every parameter whose raw value lies in the sentinel set
(`None`, `'None'`, `'none'`, `''`, `'sin'`), the Web-target resolution
(the JS coercion loop) rewrites the entry to the unquoted literal
`undefined` with its effective type forced to `code`, so the text
substituted into the construction statement is exactly `undefined` --
never a quoted string or a bare `null`. -/
theorem C1_sentinel_resolved_undefined (p : Param)
    (h : isSentinel p.val = true) :
    coerceJS p =
        InitEntry.param { p with val := PyVal.pystr "undefined", valType := "code" } ∧
      jsSub p = "undefined" := by
  obtain ⟨v, vt, up⟩ := p
  cases v with
  | pynone => exact ⟨rfl, rfl⟩
  | pybool b => simp [isSentinel] at h
  | pystr s =>
      simp only [isSentinel, Bool.or_eq_true, beq_iff_eq] at h
      rcases h with ((h | h) | h) | h <;> subst h <;> exact ⟨rfl, rfl⟩
  | pynum n => simp [isSentinel] at h

/-- C1 witness: the sentinel string `'none'` resolves to the unquoted
`undefined` code literal. -/
theorem C1_witness :
    coerceJS ⟨PyVal.pystr "none", "str", "constant"⟩ =
        InitEntry.param ⟨PyVal.pystr "undefined", "code", "constant"⟩ ∧
      jsSub ⟨PyVal.pystr "none", "str", "constant"⟩ = "undefined" :=
  C1_sentinel_resolved_undefined ⟨PyVal.pystr "none", "str", "constant"⟩ (by decide)

/-- C10: the JS boolean coercion fires only on genuine booleans: an entry
whose raw value is the string `'True'` or `'False'` passes through the
coercion loop untouched and is substituted in its raw rendered form,
which is never the unquoted lowercase literal `true`/`false`. -/
theorem C10_string_bools_uncoerced (vt up : String) :
    coerceJS ⟨PyVal.pystr "True", vt, up⟩ =
        InitEntry.param ⟨PyVal.pystr "True", vt, up⟩ ∧
      coerceJS ⟨PyVal.pystr "False", vt, up⟩ =
        InitEntry.param ⟨PyVal.pystr "False", vt, up⟩ ∧
      jsSub ⟨PyVal.pystr "True", vt, up⟩ = renderParam ⟨PyVal.pystr "True", vt, up⟩ ∧
      jsSub ⟨PyVal.pystr "False", vt, up⟩ = renderParam ⟨PyVal.pystr "False", vt, up⟩ ∧
      renderParam ⟨PyVal.pystr "True", vt, up⟩ ≠ "true" ∧
      renderParam ⟨PyVal.pystr "False", vt, up⟩ ≠ "false" := by
  refine ⟨rfl, rfl, rfl, rfl, ?_, ?_⟩
  · unfold renderParam
    split
    · show rawText (PyVal.pystr "True") ≠ "true"
      decide
    · show sq ++ "True" ++ sq ≠ "true"
      decide
  · unfold renderParam
    split
    · show rawText (PyVal.pystr "False") ≠ "false"
      decide
    · show sq ++ "False" ++ sq ≠ "false"
      decide

/-- C3: the generation pass is idempotent and mutation-free for both
targets: a second pass on the descriptor state left by the first appends
exactly the same text, and the descriptor's parameter mapping (values and
value types) is unchanged after each pass. (The non-mutation of the source
mapping rests on the spec-modelled deep copy in `getInitVals`; the JS
coercion loop writes only to that copy.) -/
theorem C3_pass_idempotent_pure (a : ImageArgs) (p : Nat) (buff : String) :
    ∃ outN outJ : String,
      writeInitCodePass (imageComponentInit a) p buff =
          some (buff ++ outN, imageComponentInit a) ∧
        writeInitCodePass (imageComponentInit a) p (buff ++ outN) =
          some ((buff ++ outN) ++ outN, imageComponentInit a) ∧
        writeInitCodeJSPass (imageComponentInit a) p buff =
          some (buff ++ outJ, imageComponentInit a) ∧
        writeInitCodeJSPass (imageComponentInit a) p (buff ++ outJ) =
          some ((buff ++ outJ) ++ outJ, imageComponentInit a) := by
  refine ⟨(nativeBodyOf a ++ nativeInterpOf a) ++ nativeDepthOf p,
    (jsBodyOf a ++ jsInterpOf a) ++ jsDepthOf p, ?_, ?_, ?_, ?_⟩ <;>
    simp [writeInitCodePass, writeInitCodeJSPass, writeInitCode_init,
      writeInitCodeJS_init]

/-- C4: the depth embedded in the emitted construction statement is
`-(position)` formatted to one decimal place, identical for both targets,
and distinct positions give distinct depths. -/
theorem C4_depth_from_position (a : ImageArgs) (p q : Nat) (_h : 1 ≤ p) :
    writeInitCode (imageComponentInit a) p =
        some ((nativeBodyOf a ++ nativeInterpOf a) ++
          ((", depth=" ++ fmtFloat1 (depthFor p)) ++ ")\n")) ∧
      writeInitCodeJS (imageComponentInit a) p =
        some ((jsBodyOf a ++ jsInterpOf a) ++
          ((", depth : " ++ fmtFloat1 (depthFor p)) ++ " \n\x7d);\n")) ∧
      depthFor p = -(p : Int) ∧
      (p ≠ q → depthFor p ≠ depthFor q) := by
  refine ⟨writeInitCode_init a p, writeInitCodeJS_init a p, rfl, ?_⟩
  intro hpq hc
  apply hpq
  have hc2 : -(p : Int) = -(q : Int) := hc
  omega

/-- C4 witness: positions 1 and 2 give depths -1.0 and -2.0. -/
theorem C4_witness :
    depthFor 1 = -(1 : Int) ∧ depthFor 1 ≠ depthFor 2 :=
  ⟨(C4_depth_from_position {} 1 2 (by decide)).2.2.1,
   (C4_depth_from_position {} 1 2 (by decide)).2.2.2 (by decide)⟩

/-- C5: both emitters render the interpolate field as the target's true
boolean literal exactly when the raw `interpolate` value is `'linear'`
and as the false literal otherwise (a dedicated test on the raw value,
separate from the generic coercion), and no other emitted field depends
on the interpolate value (the bodies and depth clauses are unchanged
under any change of the interpolate argument). -/
theorem C5_interpolate_boolean (a : ImageArgs) (p : Nat) (i j : String) :
    writeInitCode (imageComponentInit a) p =
        some ((nativeBodyOf a ++ nativeInterpOf a) ++ nativeDepthOf p) ∧
      writeInitCodeJS (imageComponentInit a) p =
        some ((jsBodyOf a ++ jsInterpOf a) ++ jsDepthOf p) ∧
      nativeInterpOf a =
        (if a.interpolate == "linear" then ", interpolate=True"
         else ", interpolate=False") ∧
      jsInterpOf a =
        (if a.interpolate == "linear" then ", interpolate : true"
         else ", interpolate : false") ∧
      nativeBodyOf { a with interpolate := i } = nativeBodyOf { a with interpolate := j } ∧
      jsBodyOf { a with interpolate := i } = jsBodyOf { a with interpolate := j } :=
  ⟨writeInitCode_init a p, writeInitCodeJS_init a p, rfl, rfl, rfl, rfl⟩

/-- C6: the native construction statement carries a units clause exactly
when the raw `units` value differs from the sentinel
`'from exp settings'`; when it equals the sentinel the clause is the
empty string -- nothing at all is emitted in its place (the body is the
header directly followed by the field list). -/
theorem C6_native_units_clause (a : ImageArgs) (p : Nat) :
    writeInitCode (imageComponentInit a) p =
        some ((nativeBodyOf a ++ nativeInterpOf a) ++ nativeDepthOf p) ∧
      nativeBodyOf a =
        (nativeHeader (renderParam ⟨PyVal.pystr a.name, "code", "constant"⟩) ++
          nativeUnitsStr ⟨PyVal.pystr a.units, "str", "constant"⟩) ++ nativeFieldsOf a ∧
      nativeUnitsStr ⟨PyVal.pystr a.units, "str", "constant"⟩ =
        (if a.units == "from exp settings" then ""
         else ("units=" ++ (sq ++ a.units ++ sq)) ++ ", ") :=
  ⟨writeInitCode_init a p, rfl, rfl⟩

set_option maxRecDepth 4096 in
/-- C2 counterexample: on the all-defaults descriptor, whose raw `units`
value is the sentinel `'from exp settings'`, the Web construction
statement does NOT omit the units clause: it contains the explicit clause
`units : undefined, ` between the header and the field list. -/
theorem C2_counterexample :
    writeInitCodeJS (imageComponentInit ({} : ImageArgs)) 1 =
      some ((("image = new visual.ImageStim(\x7b\n  win : psychoJS.window,\n  name : " ++
          sq ++ "image" ++ sq ++ ", ") ++ "units : undefined, ") ++
        ("\n  image : undefined, mask : undefined,\n  ori : 0, pos : (0, 0), size : (0.5, 0.5),\n  color : new util.Color(" ++
          sq ++ "$[1,1,1]" ++ sq ++
          "), opacity : 1,\n  flipHoriz : false, flipVert : false,\n  texRes : 128" ++
          ", interpolate : true" ++ ", depth : -1.0 \n\x7d);\n")) := by
  rfl

/-- C2 (amended): the Web emitter mirrors the Native emitter's field
selection and ordering, except that for a raw `units` value equal to the
sentinel `'from exp settings'` it emits the explicit clause
`units : undefined, ` where the Native emitter omits the clause entirely;
for any other value it emits `units : <rendered>, `. -/
theorem C2_amended_web_units_clause (a : ImageArgs) (p : Nat) :
    writeInitCodeJS (imageComponentInit a) p =
        some ((jsBodyOf a ++ jsInterpOf a) ++ jsDepthOf p) ∧
      jsBodyOf a =
        (jsHeader (jsSub ⟨PyVal.pystr a.name, "code", "constant"⟩) ++
          jsUnitsStr ⟨PyVal.pystr a.units, "str", "constant"⟩) ++ jsFieldsOf a ∧
      jsUnitsStr ⟨PyVal.pystr a.units, "str", "constant"⟩ =
        (if a.units == "from exp settings" then "units : undefined, "
         else ("units : " ++ (sq ++ a.units ++ sq)) ++ ", ") :=
  ⟨writeInitCodeJS_init a p, rfl, rfl⟩

/-- C9: the Web units clause is rendered from the raw `units` parameter
(before the sentinel coercion loop, which acts only on the separate
`inits` copy), so for a sentinel-set units value other than
`'from exp settings'` (e.g. `''` or `'none'`) the emitted clause contains
the raw quoted rendering of the parameter, never the literal
`undefined`. -/
theorem C9_units_clause_raw_rendering (a : ImageArgs) (p : Nat)
    (h : isSentinel (PyVal.pystr a.units) = true) :
    writeInitCodeJS (imageComponentInit a) p =
        some ((jsBodyOf a ++ jsInterpOf a) ++ jsDepthOf p) ∧
      jsUnitsStr ⟨PyVal.pystr a.units, "str", "constant"⟩ =
        ("units : " ++ (sq ++ a.units ++ sq)) ++ ", " ∧
      (sq ++ a.units ++ sq) ≠ "undefined" := by
  refine ⟨writeInitCodeJS_init a p, ?_, ?_⟩ <;>
    · simp only [isSentinel, Bool.or_eq_true, beq_iff_eq] at h
      rcases h with ((h | h) | h) | h <;> rw [h] <;> decide

/-- C9 witness: a units value of `'none'` yields the clause
`units : 'none', `, not `units : undefined, `. -/
theorem C9_witness :
    jsUnitsStr ⟨PyVal.pystr "none", "str", "constant"⟩ =
        ("units : " ++ (sq ++ "none" ++ sq)) ++ ", " ∧
      (sq ++ "none" ++ sq) ≠ "undefined" :=
  ⟨(C9_units_clause_raw_rendering { units := "none" } 1 (by decide)).2.1,
   (C9_units_clause_raw_rendering { units := "none" } 1 (by decide)).2.2⟩

/-- C7: the constructor installs the four fill/border color parameters
(through the base class) and then deletes them; afterwards none of the
four names is bound in the mapping, neither emitter template references
any of them, and both emitters complete successfully (no missing-binding
error) on the constructed descriptor. -/
theorem C7_deleted_params_no_dangling (a : ImageArgs) (p : Nat) :
    lookupP (baseVisualParams a) "fillColor" =
        some ⟨PyVal.pystr "", "str", "constant"⟩ ∧
      lookupP (baseVisualParams a) "fillColorSpace" =
        some ⟨PyVal.pystr "rgb", "str", "constant"⟩ ∧
      lookupP (baseVisualParams a) "borderColor" =
        some ⟨PyVal.pystr "", "str", "constant"⟩ ∧
      lookupP (baseVisualParams a) "borderColorSpace" =
        some ⟨PyVal.pystr "rgb", "str", "constant"⟩ ∧
      lookupP (imageComponentInit a) "fillColor" = none ∧
      lookupP (imageComponentInit a) "fillColorSpace" = none ∧
      lookupP (imageComponentInit a) "borderColor" = none ∧
      lookupP (imageComponentInit a) "borderColorSpace" = none ∧
      "fillColor" ∉ nativeTemplateRefs ∧
      "fillColorSpace" ∉ nativeTemplateRefs ∧
      "borderColor" ∉ nativeTemplateRefs ∧
      "borderColorSpace" ∉ nativeTemplateRefs ∧
      "fillColor" ∉ jsTemplateRefs ∧
      "fillColorSpace" ∉ jsTemplateRefs ∧
      "borderColor" ∉ jsTemplateRefs ∧
      "borderColorSpace" ∉ jsTemplateRefs ∧
      (writeInitCode (imageComponentInit a) p).isSome = true ∧
      (writeInitCodeJS (imageComponentInit a) p).isSome = true := by
  refine ⟨rfl, rfl, rfl, rfl, rfl, rfl, rfl, rfl,
    by decide, by decide, by decide, by decide,
    by decide, by decide, by decide, by decide, ?_, ?_⟩
  · rw [writeInitCode_init]
    rfl
  · rw [writeInitCodeJS_init]
    rfl

/-! ## Terminator-token machinery for C8

`cleanStr s` says no character of `s` is a semicolon (codepoint 59) or a
closing brace (codepoint 125); `endsWithStr s suf` says `suf` is a suffix
of `s`. -/

/-- No semicolon and no closing brace occurs in the string. -/
abbrev cleanStr (s : String) : Prop :=
  ∀ c ∈ s.data, c.toNat ≠ 59 ∧ c.toNat ≠ 125

theorem cleanStr_append {s t : String} (hs : cleanStr s) (ht : cleanStr t) :
    cleanStr (s ++ t) := by
  intro c hc
  rw [String.data_append] at hc
  rcases List.mem_append.mp hc with h | h
  · exact hs c h
  · exact ht c h

/-- `suf` is a suffix of `s`. -/
def endsWithStr (s suf : String) : Prop :=
  ∃ pre, s = pre ++ suf

theorem endsWithStr_append (s : String) {t u : String} (h : endsWithStr t u) :
    endsWithStr (s ++ t) u := by
  obtain ⟨pre, hp⟩ := h
  exact ⟨s ++ pre, by rw [hp, String.append_assoc]⟩

theorem clean_digitChar (n : Nat) :
    (Nat.digitChar n).toNat ≠ 59 ∧ (Nat.digitChar n).toNat ≠ 125 := by
  match n with
  | 0 => decide
  | 1 => decide
  | 2 => decide
  | 3 => decide
  | 4 => decide
  | 5 => decide
  | 6 => decide
  | 7 => decide
  | 8 => decide
  | 9 => decide
  | 10 => decide
  | 11 => decide
  | 12 => decide
  | 13 => decide
  | 14 => decide
  | 15 => decide
  | (m + 16) =>
      show Char.toNat (Char.ofNat 42) ≠ 59 ∧ Char.toNat (Char.ofNat 42) ≠ 125
      decide

theorem clean_toDigitsCore (b : Nat) (f : Nat) :
    ∀ (n : Nat) (ds : List Char),
      (∀ c ∈ ds, c.toNat ≠ 59 ∧ c.toNat ≠ 125) →
      ∀ c ∈ Nat.toDigitsCore b f n ds, c.toNat ≠ 59 ∧ c.toNat ≠ 125 := by
  induction f with
  | zero =>
      intro n ds hds c hc
      simp only [Nat.toDigitsCore] at hc
      exact hds c hc
  | succ f ih =>
      intro n ds hds c hc
      simp only [Nat.toDigitsCore] at hc
      have hcons : ∀ x ∈ (Nat.digitChar (n % b) :: ds), x.toNat ≠ 59 ∧ x.toNat ≠ 125 := by
        intro x hx
        rcases List.mem_cons.mp hx with h | h
        · subst h
          exact clean_digitChar _
        · exact hds x h
      split at hc
      · exact hcons c hc
      · exact ih (n / b) (Nat.digitChar (n % b) :: ds) hcons c hc

theorem clean_natRepr (n : Nat) : cleanStr (Nat.repr n) := by
  intro c hc
  exact clean_toDigitsCore 10 (n + 1) n [] (by intro x hx; cases hx) c hc

theorem clean_intRepr (i : Int) : cleanStr (Int.repr i) := by
  cases i with
  | ofNat m => exact clean_natRepr m
  | negSucc m => exact cleanStr_append (by decide) (clean_natRepr (m + 1))

theorem clean_fmtFloat1 (d : Int) : cleanStr (fmtFloat1 d) :=
  cleanStr_append (clean_intRepr d) (by decide)

theorem clean_rawText_bool (b : Bool) : cleanStr (rawText (PyVal.pybool b)) := by
  cases b <;> decide

theorem clean_rawText_num (n : Int) : cleanStr (rawText (PyVal.pynum n)) :=
  clean_intRepr n

theorem clean_renderParam (v : PyVal) (vt up : String)
    (h : cleanStr (rawText v)) : cleanStr (renderParam ⟨v, vt, up⟩) := by
  unfold renderParam
  split
  · exact h
  · cases v with
    | pynone =>
        show cleanStr "None"
        decide
    | pybool b =>
        cases b
        · show cleanStr "False"
          decide
        · show cleanStr "True"
          decide
    | pystr s =>
        show cleanStr (sq ++ s ++ sq)
        exact cleanStr_append (cleanStr_append (by decide) h) (by decide)
    | pynum n =>
        show cleanStr (toString n)
        exact clean_intRepr n

/-- The native emitter's output on the all-defaults descriptor, up to the
closing parenthesis. -/
def nativeDefaultPre : String :=
  "image = visual.ImageStim(\n    win=win,\n    name=" ++ sq ++ "image" ++ sq ++
  ", \n    image=" ++ sq ++ "None" ++ sq ++ ", mask=" ++ sq ++ "None" ++ sq ++
  ",\n    ori=0, pos=(0, 0), size=(0.5, 0.5),\n    color=" ++ sq ++ "$[1,1,1]" ++ sq ++
  ", colorSpace=" ++ sq ++ "rgb" ++ sq ++
  ", opacity=1,\n    flipHoriz=False, flipVert=False,\n    texRes=128, interpolate=True, depth=-1.0"

set_option maxRecDepth 4096 in
/-- C8 counterexample: the Native emitter's output on the all-defaults
descriptor DOES contain one of the named terminator tokens: it ends with
a closing parenthesis (codepoint 41), so "contains no such terminator
tokens" is false for the Native output. -/
theorem C8_counterexample :
    writeInitCode (imageComponentInit ({} : ImageArgs)) 1 =
        some (nativeDefaultPre ++ ")\n") ∧
      Char.ofNat 41 ∈ (nativeDefaultPre ++ ")\n").data := by
  exact ⟨by rfl, by decide⟩

/-- C8 (amended): the Web emitter's output ends its construction
statement with the closing brace, parenthesis and semicolon; the Native
emitter's output ends with a bare closing parenthesis and newline, and
(for parameter texts free of those characters) contains no statement
terminator semicolon and no closing brace. -/
theorem C8_amended_terminators (a : ImageArgs) (p : Nat)
    (h1 : cleanStr a.name) (h2 : cleanStr a.image) (h3 : cleanStr a.mask)
    (h4 : cleanStr a.units) (h5 : cleanStr a.color) (h6 : cleanStr a.colorSpace)
    (h7 : cleanStr a.pos) (h8 : cleanStr a.size) (h9 : cleanStr a.texRes) :
    writeInitCodeJS (imageComponentInit a) p =
        some ((jsBodyOf a ++ jsInterpOf a) ++ jsDepthOf p) ∧
      endsWithStr ((jsBodyOf a ++ jsInterpOf a) ++ jsDepthOf p) ("\x7d);\n") ∧
      writeInitCode (imageComponentInit a) p =
        some ((nativeBodyOf a ++ nativeInterpOf a) ++ nativeDepthOf p) ∧
      endsWithStr ((nativeBodyOf a ++ nativeInterpOf a) ++ nativeDepthOf p) (")\n") ∧
      cleanStr ((nativeBodyOf a ++ nativeInterpOf a) ++ nativeDepthOf p) := by
  refine ⟨writeInitCodeJS_init a p, ?_, writeInitCode_init a p, ?_, ?_⟩
  · exact endsWithStr_append _ (endsWithStr_append (", depth : " ++ fmtFloat1 (depthFor p)) ⟨" \n", rfl⟩)
  · exact endsWithStr_append _ ⟨", depth=" ++ fmtFloat1 (depthFor p), rfl⟩
  · have hnm : cleanStr (renderParam ⟨PyVal.pystr a.name, "code", "constant"⟩) :=
      clean_renderParam _ _ _ h1
    have him : cleanStr (renderParam ⟨PyVal.pystr a.image, "file", "constant"⟩) :=
      clean_renderParam _ _ _ h2
    have hmk : cleanStr (renderParam ⟨PyVal.pystr a.mask, "str", "constant"⟩) :=
      clean_renderParam _ _ _ h3
    have hori : cleanStr (renderParam ⟨PyVal.pynum a.ori, "num", "constant"⟩) :=
      clean_renderParam _ _ _ (clean_rawText_num a.ori)
    have hps : cleanStr (renderParam ⟨PyVal.pystr a.pos, "code", "constant"⟩) :=
      clean_renderParam _ _ _ h7
    have hsz : cleanStr (renderParam ⟨PyVal.pystr a.size, "code", "constant"⟩) :=
      clean_renderParam _ _ _ h8
    have hco : cleanStr (renderParam ⟨PyVal.pystr a.color, "str", "constant"⟩) :=
      clean_renderParam _ _ _ h5
    have hcs : cleanStr (renderParam ⟨PyVal.pystr a.colorSpace, "str", "constant"⟩) :=
      clean_renderParam _ _ _ h6
    have hop : cleanStr (renderParam ⟨PyVal.pynum 1, "num", "constant"⟩) := by decide
    have hfh : cleanStr (renderParam ⟨PyVal.pybool a.flipHoriz, "bool", "constant"⟩) :=
      clean_renderParam _ _ _ (clean_rawText_bool a.flipHoriz)
    have hfv : cleanStr (renderParam ⟨PyVal.pybool a.flipVert, "bool", "constant"⟩) :=
      clean_renderParam _ _ _ (clean_rawText_bool a.flipVert)
    have htx : cleanStr (renderParam ⟨PyVal.pystr a.texRes, "num", "constant"⟩) :=
      clean_renderParam _ _ _ h9
    have hsq : cleanStr sq := by decide
    have hunits : cleanStr (nativeUnitsStr (unitsParamOf a)) := by
      unfold nativeUnitsStr
      split
      · decide
      · exact cleanStr_append
          (cleanStr_append (by decide) (clean_renderParam _ _ _ h4)) (by decide)
    have hinterp : cleanStr (nativeInterpOf a) := by
      unfold nativeInterpOf
      split <;> decide
    have hdepth : cleanStr (nativeDepthOf p) :=
      cleanStr_append (cleanStr_append (by decide) (clean_fmtFloat1 _)) (by decide)
    refine cleanStr_append (cleanStr_append ?_ hinterp) hdepth
    unfold nativeBodyOf nativeHeader nativeFieldsOf nativeFields
    repeat' apply cleanStr_append
    all_goals first
      | assumption
      | decide

/-- C8 witness: at the default descriptor and position 1, the Web output
ends with the terminator tokens and the Native output is free of
semicolons and closing braces. -/
theorem C8_witness :
    endsWithStr ((jsBodyOf ({} : ImageArgs) ++ jsInterpOf {}) ++ jsDepthOf 1) ("\x7d);\n") ∧
      cleanStr ((nativeBodyOf ({} : ImageArgs) ++ nativeInterpOf {}) ++ nativeDepthOf 1) := by
  have h := C8_amended_terminators {} 1 (by decide) (by decide) (by decide)
    (by decide) (by decide) (by decide) (by decide) (by decide) (by decide)
  exact ⟨h.2.1, h.2.2.2.2⟩

end PsychopyImage
